import Mathlib

/-!
Verification of the box-normalization core of `sliding_window_py/dataset/extract_patches.py`:
`confine_box` (clamping a box into image bounds), `pad_to_square` (expanding the shorter
dimension of a box to make it square, with edge-aware shifting and a final containment
check), and the per-label control flow of `extract_patch_data`.

A Python box is the list `[x_min, y_min, x_max, y_max]` of integer pixel coordinates
(coordinates are rounded to integers at parse time in `convert_label_to_dict`).
Both core functions receive bounds as four integers `ymin, xmin, ymax, xmax`.
-/

namespace ExtractPatches

/-- The Python box list `[box[0], box[1], box[2], box[3]]` = `[x_min, y_min, x_max, y_max]`. -/
structure Box where
  x_min : Int
  y_min : Int
  x_max : Int
  y_max : Int
deriving DecidableEq

/-- Embedding of `confine_box(box, ymin, xmin, ymax, xmax)` (lines 211-226): each of the
four coordinates is independently clipped, `box[i] = max(lower, min(upper, box[i]))`. -/
def confine_box (box : Box) (ymin xmin ymax xmax : Int) : Box :=
  { x_min := max xmin (min xmax box.x_min)
    y_min := max ymin (min ymax box.y_min)
    x_max := max xmin (min xmax box.x_max)
    y_max := max ymin (min ymax box.y_max) }

/-- `math.ceil(abs(n) / 2)` for an integer `n`, as in line 188/190: the amount
subtracted from the min coordinate of the shorter axis. -/
def padCeil (n : Int) : Int := ⌈((|n| : Int) : ℚ) / 2⌉

/-- `math.floor(abs(n) / 2)` for an integer `n`, as in line 188/191: the amount
added to the max coordinate of the shorter axis. -/
def padFloor (n : Int) : Int := ⌊((|n| : Int) : ℚ) / 2⌋

/-- Lines 190-191: `box[1] -= math.ceil(padding); box[3] += math.floor(padding)` where
`padding = abs(width - height) / 2` is computed from the input box (line 188). -/
def pad_y (box : Box) : Box :=
  { box with
    y_min := box.y_min - padCeil (box.x_max - box.x_min - (box.y_max - box.y_min))
    y_max := box.y_max + padFloor (box.x_max - box.x_min - (box.y_max - box.y_min)) }

/-- Lines 199-200: `box[0] -= math.ceil(padding); box[2] += math.floor(padding)`. -/
def pad_x (box : Box) : Box :=
  { box with
    x_min := box.x_min - padCeil (box.x_max - box.x_min - (box.y_max - box.y_min))
    x_max := box.x_max + padFloor (box.x_max - box.x_min - (box.y_max - box.y_min)) }

/-- Lines 192-194: `if box[1] < ymin: box[3] += ymin - box[1]; box[1] = ymin`. -/
def correct_min_y (box : Box) (ymin : Int) : Box :=
  if box.y_min < ymin then
    { box with y_max := box.y_max + (ymin - box.y_min), y_min := ymin }
  else box

/-- Lines 195-197: `if box[3] > ymax: box[1] -= box[3] - ymax; box[3] = ymax`. -/
def correct_max_y (box : Box) (ymax : Int) : Box :=
  if box.y_max > ymax then
    { box with y_min := box.y_min - (box.y_max - ymax), y_max := ymax }
  else box

/-- Lines 201-203: `if box[0] < xmin: box[2] += xmin - box[0]; box[0] = xmin`. -/
def correct_min_x (box : Box) (xmin : Int) : Box :=
  if box.x_min < xmin then
    { box with x_max := box.x_max + (xmin - box.x_min), x_min := xmin }
  else box

/-- Lines 204-206: `if box[2] > xmax: box[0] -= box[2] - xmax; box[2] = xmax`. -/
def correct_max_x (box : Box) (xmax : Int) : Box :=
  if box.x_max > xmax then
    { box with x_min := box.x_min - (box.x_max - xmax), x_max := xmax }
  else box

/-- The mutation phase of `pad_to_square` (lines 185-206): if `width > height` pad the
vertical dimension and apply the two sequential y edge corrections; if `height > width`
do the symmetric x-axis work; an already-square box is left untouched. -/
def pad_corrected (box : Box) (ymin xmin ymax xmax : Int) : Box :=
  if box.x_max - box.x_min > box.y_max - box.y_min then
    correct_max_y (correct_min_y (pad_y box) ymin) ymax
  else if box.y_max - box.y_min > box.x_max - box.x_min then
    correct_max_x (correct_min_x (pad_x box) xmin) xmax
  else box

/-- Embedding of `pad_to_square(box, ymin, xmin, ymax, xmax)` (lines 170-208): run the
mutation phase, then the final containment check of line 207; on violation raise
`ValueError` (line 208), carrying the attempted box and the original input box. -/
def pad_to_square (box : Box) (ymin xmin ymax xmax : Int) : Except (Box × Box) Box :=
  if (pad_corrected box ymin xmin ymax xmax).x_min < xmin ∨
      (pad_corrected box ymin xmin ymax xmax).x_max > xmax ∨
      (pad_corrected box ymin xmin ymax xmax).y_min < ymin ∨
      (pad_corrected box ymin xmin ymax xmax).y_max > ymax then
    Except.error (pad_corrected box ymin xmin ymax xmax, box)
  else
    Except.ok (pad_corrected box ymin xmin ymax xmax)

/-- The per-label control flow of `extract_patch_data` (lines 90-112): the label's box is
clamped by `confine_box`, then `pad_to_square` is attempted; on `ValueError` the label is
skipped (`continue`), then a padded box with zero width or zero height is skipped, and
otherwise a patch is emitted for the resulting box. `some b` means a patch cropped at box
`b` is emitted; `none` means the label is skipped. -/
def process_label (box : Box) (ymin xmin ymax xmax : Int) : Option Box :=
  let clamped := confine_box box ymin xmin ymax xmax
  match pad_to_square clamped ymin xmin ymax xmax with
  | Except.error _ => none
  | Except.ok b =>
    if b.x_max - b.x_min = 0 ∨ b.y_max - b.y_min = 0 then none
    else some b

/-- A box lies within the bounds: the negation of the containment check of line 207. -/
def inBounds (box : Box) (ymin xmin ymax xmax : Int) : Prop :=
  xmin ≤ box.x_min ∧ box.x_max ≤ xmax ∧ ymin ≤ box.y_min ∧ box.y_max ≤ ymax

instance (box : Box) (ymin xmin ymax xmax : Int) :
    Decidable (inBounds box ymin xmin ymax xmax) := by
  unfold inBounds; infer_instance

/-- Each of the four coordinates lies within the bound interval of its axis. -/
def coordsWithin (box : Box) (ymin xmin ymax xmax : Int) : Prop :=
  xmin ≤ box.x_min ∧ box.x_min ≤ xmax ∧ xmin ≤ box.x_max ∧ box.x_max ≤ xmax ∧
    ymin ≤ box.y_min ∧ box.y_min ≤ ymax ∧ ymin ≤ box.y_max ∧ box.y_max ≤ ymax

instance (box : Box) (ymin xmin ymax xmax : Int) :
    Decidable (coordsWithin box ymin xmin ymax xmax) := by
  unfold coordsWithin; infer_instance

/- Facts about clamping a single coordinate. -/

theorem clamp_eq_self (lo hi v : Int) (h1 : lo ≤ v) (h2 : v ≤ hi) :
    max lo (min hi v) = v := by
  rw [min_eq_right h2, max_eq_right h1]

theorem clamp_mem (lo hi v : Int) (h : lo ≤ hi) :
    lo ≤ max lo (min hi v) ∧ max lo (min hi v) ≤ hi :=
  ⟨le_max_left lo _, max_le h (min_le_left hi v)⟩

theorem clamp_mono (lo hi : Int) {a b : Int} (h : a ≤ b) :
    max lo (min hi a) ≤ max lo (min hi b) :=
  max_le_max le_rfl (min_le_min le_rfl h)

/- Arithmetic facts about the ceil/floor split of the padding. -/

theorem floor_int_half (n : Int) : ⌊((n : ℚ)) / 2⌋ = n / 2 := by
  have h := Rat.floor_intCast_div_natCast n 2
  simpa using h

theorem ceil_int_half (n : Int) : ⌈((n : ℚ)) / 2⌉ = (n + 1) / 2 := by
  have h1 : ((n : ℚ)) / 2 = -((((-n : Int)) : ℚ) / 2) := by push_cast; ring
  rw [h1, Int.ceil_neg, floor_int_half]
  omega

theorem padCeil_eq (n : Int) : padCeil n = ((n.natAbs : Int) + 1) / 2 := by
  unfold padCeil
  rw [Int.abs_eq_natAbs, ceil_int_half]

theorem padFloor_eq (n : Int) : padFloor n = (n.natAbs : Int) / 2 := by
  unfold padFloor
  rw [Int.abs_eq_natAbs, floor_int_half]

theorem padCeil_add_padFloor (n : Int) :
    padCeil n + padFloor n = (n.natAbs : Int) := by
  rw [padCeil_eq, padFloor_eq]
  omega

theorem padFloor_le_padCeil (n : Int) :
    padFloor n ≤ padCeil n ∧ padCeil n ≤ padFloor n + 1 := by
  rw [padCeil_eq, padFloor_eq]
  omega

theorem ceil_half_eq_padCeil (n : Int) (h : 0 ≤ n) : ⌈((n : ℚ)) / 2⌉ = padCeil n := by
  rw [ceil_int_half, padCeil_eq]
  omega

theorem floor_half_eq_padFloor (n : Int) (h : 0 ≤ n) : ⌊((n : ℚ)) / 2⌋ = padFloor n := by
  rw [floor_int_half, padFloor_eq]
  omega

/- Shape facts for the padding step and the two-correction pipeline of each axis. -/

theorem pad_y_spec (box : Box) :
    (pad_y box).x_min = box.x_min ∧ (pad_y box).x_max = box.x_max ∧
    (pad_y box).y_min =
      box.y_min - padCeil (box.x_max - box.x_min - (box.y_max - box.y_min)) ∧
    (pad_y box).y_max =
      box.y_max + padFloor (box.x_max - box.x_min - (box.y_max - box.y_min)) :=
  ⟨rfl, rfl, rfl, rfl⟩

theorem pad_x_spec (box : Box) :
    (pad_x box).y_min = box.y_min ∧ (pad_x box).y_max = box.y_max ∧
    (pad_x box).x_min =
      box.x_min - padCeil (box.x_max - box.x_min - (box.y_max - box.y_min)) ∧
    (pad_x box).x_max =
      box.x_max + padFloor (box.x_max - box.x_min - (box.y_max - box.y_min)) :=
  ⟨rfl, rfl, rfl, rfl⟩

theorem pad_y_span (box : Box) :
    (pad_y box).y_max - (pad_y box).y_min =
      (box.y_max - box.y_min) +
        ((box.x_max - box.x_min - (box.y_max - box.y_min)).natAbs : Int) := by
  have h := padCeil_add_padFloor (box.x_max - box.x_min - (box.y_max - box.y_min))
  unfold pad_y
  dsimp only
  omega

theorem pad_x_span (box : Box) :
    (pad_x box).x_max - (pad_x box).x_min =
      (box.x_max - box.x_min) +
        ((box.x_max - box.x_min - (box.y_max - box.y_min)).natAbs : Int) := by
  have h := padCeil_add_padFloor (box.x_max - box.x_min - (box.y_max - box.y_min))
  unfold pad_x
  dsimp only
  omega

theorem corr_y_frame (c : Box) (ymin ymax : Int) :
    (correct_max_y (correct_min_y c ymin) ymax).x_min = c.x_min ∧
    (correct_max_y (correct_min_y c ymin) ymax).x_max = c.x_max ∧
    (correct_max_y (correct_min_y c ymin) ymax).y_max -
      (correct_max_y (correct_min_y c ymin) ymax).y_min = c.y_max - c.y_min := by
  unfold correct_min_y correct_max_y
  split_ifs <;> (try dsimp only) <;> omega

theorem corr_x_frame (c : Box) (xmin xmax : Int) :
    (correct_max_x (correct_min_x c xmin) xmax).y_min = c.y_min ∧
    (correct_max_x (correct_min_x c xmin) xmax).y_max = c.y_max ∧
    (correct_max_x (correct_min_x c xmin) xmax).x_max -
      (correct_max_x (correct_min_x c xmin) xmax).x_min = c.x_max - c.x_min := by
  unfold correct_min_x correct_max_x
  split_ifs <;> (try dsimp only) <;> omega

/-- When the vertical span of the box fits the vertical span of the bounds, the two
sequential y corrections land the box inside the y bounds. -/
theorem corr_y_of_le (c : Box) (ymin ymax : Int)
    (h : c.y_max - c.y_min ≤ ymax - ymin) :
    ymin ≤ (correct_max_y (correct_min_y c ymin) ymax).y_min ∧
      (correct_max_y (correct_min_y c ymin) ymax).y_max ≤ ymax := by
  unfold correct_min_y correct_max_y
  split_ifs <;> (try dsimp only) <;> omega

/-- When the vertical span of the box exceeds the vertical span of the bounds, the two
sequential y corrections leave a coordinate outside the y bounds. -/
theorem corr_y_of_gt (c : Box) (ymin ymax : Int)
    (h : c.y_max - c.y_min > ymax - ymin) :
    (correct_max_y (correct_min_y c ymin) ymax).y_min < ymin ∨
      (correct_max_y (correct_min_y c ymin) ymax).y_max > ymax := by
  unfold correct_min_y correct_max_y
  split_ifs <;> (try dsimp only) <;> omega

theorem corr_x_of_le (c : Box) (xmin xmax : Int)
    (h : c.x_max - c.x_min ≤ xmax - xmin) :
    xmin ≤ (correct_max_x (correct_min_x c xmin) xmax).x_min ∧
      (correct_max_x (correct_min_x c xmin) xmax).x_max ≤ xmax := by
  unfold correct_min_x correct_max_x
  split_ifs <;> (try dsimp only) <;> omega

theorem corr_x_of_gt (c : Box) (xmin xmax : Int)
    (h : c.x_max - c.x_min > xmax - xmin) :
    (correct_max_x (correct_min_x c xmin) xmax).x_min < xmin ∨
      (correct_max_x (correct_min_x c xmin) xmax).x_max > xmax := by
  unfold correct_min_x correct_max_x
  split_ifs <;> (try dsimp only) <;> omega

/-- When neither y correction fires, the pipeline is the identity. -/
theorem corr_y_id (c : Box) (ymin ymax : Int)
    (h1 : ymin ≤ c.y_min) (h2 : c.y_max ≤ ymax) :
    correct_max_y (correct_min_y c ymin) ymax = c := by
  unfold correct_min_y correct_max_y
  split_ifs <;> first | rfl | omega

/-- When neither x correction fires, the pipeline is the identity. -/
theorem corr_x_id (c : Box) (xmin xmax : Int)
    (h1 : xmin ≤ c.x_min) (h2 : c.x_max ≤ xmax) :
    correct_max_x (correct_min_x c xmin) xmax = c := by
  unfold correct_min_x correct_max_x
  split_ifs <;> first | rfl | omega

/- Characterization of `pad_to_square` in terms of `pad_corrected` and `inBounds`. -/

theorem pad_to_square_ok_iff (box : Box) (ymin xmin ymax xmax : Int) (b : Box) :
    pad_to_square box ymin xmin ymax xmax = Except.ok b ↔
      b = pad_corrected box ymin xmin ymax xmax ∧
        inBounds (pad_corrected box ymin xmin ymax xmax) ymin xmin ymax xmax := by
  unfold pad_to_square inBounds
  split_ifs with h
  · constructor
    · intro h2
      exact h2.elim
    · rintro ⟨rfl, h2⟩
      exfalso
      omega
  · constructor
    · intro h2
      injection h2 with h2
      exact ⟨h2.symm, by omega⟩
    · rintro ⟨rfl, h2⟩
      rfl

theorem pad_to_square_error_iff (box : Box) (ymin xmin ymax xmax : Int) (e : Box × Box) :
    pad_to_square box ymin xmin ymax xmax = Except.error e ↔
      e = (pad_corrected box ymin xmin ymax xmax, box) ∧
        ¬ inBounds (pad_corrected box ymin xmin ymax xmax) ymin xmin ymax xmax := by
  unfold pad_to_square inBounds
  split_ifs with h
  · constructor
    · intro h2
      injection h2 with h2
      exact ⟨h2.symm, by omega⟩
    · rintro ⟨rfl, h2⟩
      rfl
  · constructor
    · intro h2
      exact h2.elim
    · rintro ⟨rfl, h2⟩
      exfalso
      omega

theorem pad_to_square_isError_iff (box : Box) (ymin xmin ymax xmax : Int) :
    (∃ e, pad_to_square box ymin xmin ymax xmax = Except.error e) ↔
      ¬ inBounds (pad_corrected box ymin xmin ymax xmax) ymin xmin ymax xmax := by
  unfold pad_to_square inBounds
  split_ifs with h
  · constructor
    · intro _
      omega
    · intro _
      exact ⟨_, rfl⟩
  · constructor
    · rintro ⟨e, he⟩
      exact he.elim
    · intro h2
      exfalso
      omega

/-- The mutation phase always produces a box whose width equals its height: when
`width > height` the vertical padding adds `ceil + floor = width - height` to the height,
and the two edge corrections only translate the box along the y axis; symmetrically for
`height > width`; an input with `width = height` is returned unchanged. -/
theorem pad_corrected_square (box : Box) (ymin xmin ymax xmax : Int) :
    (pad_corrected box ymin xmin ymax xmax).x_max -
      (pad_corrected box ymin xmin ymax xmax).x_min =
    (pad_corrected box ymin xmin ymax xmax).y_max -
      (pad_corrected box ymin xmin ymax xmax).y_min := by
  unfold pad_corrected
  split_ifs with h1 h2
  · obtain ⟨hf1, hf2, hf3⟩ := corr_y_frame (pad_y box) ymin ymax
    have hs := pad_y_span box
    obtain ⟨hp1, hp2, -, -⟩ := pad_y_spec box
    omega
  · obtain ⟨hf1, hf2, hf3⟩ := corr_x_frame (pad_x box) xmin xmax
    have hs := pad_x_span box
    obtain ⟨hp1, hp2, -, -⟩ := pad_x_spec box
    omega
  · omega

/-- The side of the box produced by the mutation phase is the longer of the input's
width and height. -/
theorem pad_corrected_side (box : Box) (ymin xmin ymax xmax : Int) :
    (pad_corrected box ymin xmin ymax xmax).x_max -
      (pad_corrected box ymin xmin ymax xmax).x_min =
    max (box.x_max - box.x_min) (box.y_max - box.y_min) := by
  unfold pad_corrected
  split_ifs with h1 h2
  · obtain ⟨hf1, hf2, hf3⟩ := corr_y_frame (pad_y box) ymin ymax
    obtain ⟨hp1, hp2, -, -⟩ := pad_y_spec box
    omega
  · obtain ⟨hf1, hf2, hf3⟩ := corr_x_frame (pad_x box) xmin xmax
    have hs := pad_x_span box
    obtain ⟨hp1, hp2, -, -⟩ := pad_x_spec box
    omega
  · omega

/-- The mutation phase never touches the coordinates of the longer axis, and leaves an
already-square box entirely unchanged. -/
theorem pad_corrected_frame (box : Box) (ymin xmin ymax xmax : Int) :
    (box.x_max - box.x_min > box.y_max - box.y_min →
      (pad_corrected box ymin xmin ymax xmax).x_min = box.x_min ∧
      (pad_corrected box ymin xmin ymax xmax).x_max = box.x_max) ∧
    (box.y_max - box.y_min > box.x_max - box.x_min →
      (pad_corrected box ymin xmin ymax xmax).y_min = box.y_min ∧
      (pad_corrected box ymin xmin ymax xmax).y_max = box.y_max) ∧
    (box.x_max - box.x_min = box.y_max - box.y_min →
      pad_corrected box ymin xmin ymax xmax = box) := by
  refine ⟨?_, ?_, ?_⟩ <;> intro h
  · unfold pad_corrected
    rw [if_pos h]
    obtain ⟨hf1, hf2, -⟩ := corr_y_frame (pad_y box) ymin ymax
    obtain ⟨hp1, hp2, -, -⟩ := pad_y_spec box
    omega
  · unfold pad_corrected
    rw [if_neg (by omega), if_pos h]
    obtain ⟨hf1, hf2, -⟩ := corr_x_frame (pad_x box) xmin xmax
    obtain ⟨hp1, hp2, -, -⟩ := pad_x_spec box
    omega
  · unfold pad_corrected
    rw [if_neg (by omega), if_neg (by omega)]

/-- For a box already contained in the bounds, the corrected box passes the final
containment check exactly when neither axis demands a square side larger than the
bounds' span on the other axis. -/
theorem pad_corrected_inBounds_of_contained (box : Box) (ymin xmin ymax xmax : Int)
    (hb : inBounds box ymin xmin ymax xmax) :
    inBounds (pad_corrected box ymin xmin ymax xmax) ymin xmin ymax xmax ↔
      ¬ ((box.x_max - box.x_min > box.y_max - box.y_min ∧
            box.x_max - box.x_min > ymax - ymin) ∨
         (box.y_max - box.y_min > box.x_max - box.x_min ∧
            box.y_max - box.y_min > xmax - xmin)) := by
  obtain ⟨hb1, hb2, hb3, hb4⟩ := hb
  unfold pad_corrected inBounds
  split_ifs with h1 h2
  · obtain ⟨hf1, hf2, hf3⟩ := corr_y_frame (pad_y box) ymin ymax
    have hs := pad_y_span box
    obtain ⟨hp1, hp2, -, -⟩ := pad_y_spec box
    rcases le_or_lt ((pad_y box).y_max - (pad_y box).y_min) (ymax - ymin) with hle | hgt
    · obtain ⟨ho1, ho2⟩ := corr_y_of_le (pad_y box) ymin ymax hle
      omega
    · have hbad := corr_y_of_gt (pad_y box) ymin ymax hgt
      omega
  · obtain ⟨hf1, hf2, hf3⟩ := corr_x_frame (pad_x box) xmin xmax
    have hs := pad_x_span box
    obtain ⟨hp1, hp2, -, -⟩ := pad_x_spec box
    rcases le_or_lt ((pad_x box).x_max - (pad_x box).x_min) (xmax - xmin) with hle | hgt
    · obtain ⟨ho1, ho2⟩ := corr_x_of_le (pad_x box) xmin xmax hle
      omega
    · have hbad := corr_x_of_gt (pad_x box) xmin xmax hgt
      omega
  · omega

/- The claims. -/

/-- Claim C1: for every input box and every bounds rectangle with ordered bounds, if
`pad_to_square` returns without raising, the returned box is square
(`x_max - x_min == y_max - y_min`) and lies within the bounds. -/
theorem pad_ok_square_and_contained (box : Box) (ymin xmin ymax xmax : Int)
    (hx : xmin ≤ xmax) (hy : ymin ≤ ymax) (b : Box)
    (h : pad_to_square box ymin xmin ymax xmax = Except.ok b) :
    b.x_max - b.x_min = b.y_max - b.y_min ∧ inBounds b ymin xmin ymax xmax := by
  obtain ⟨rfl, h2⟩ := (pad_to_square_ok_iff box ymin xmin ymax xmax b).mp h
  exact ⟨pad_corrected_square box ymin xmin ymax xmax, h2⟩

/-- Claim C1 witness: box `(0,0,10,5)` with bounds `(0,0,100,100)` succeeds with the
square `(0,0,10,10)`. -/
theorem pad_ok_square_and_contained_witness :
    (⟨0, 0, 10, 10⟩ : Box).x_max - (⟨0, 0, 10, 10⟩ : Box).x_min =
        (⟨0, 0, 10, 10⟩ : Box).y_max - (⟨0, 0, 10, 10⟩ : Box).y_min ∧
      inBounds ⟨0, 0, 10, 10⟩ 0 0 100 100 :=
  pad_ok_square_and_contained ⟨0, 0, 10, 5⟩ 0 0 100 100 (by decide) (by decide)
    ⟨0, 0, 10, 10⟩ (by
      simp [pad_to_square, pad_corrected, pad_y, pad_x, correct_min_y, correct_max_y,
        correct_min_x, correct_max_x, padCeil_eq, padFloor_eq])

/-- Claim C2: for a box already contained in the bounds, `pad_to_square` raises exactly
when the box's longer dimension exceeds the bounds' span along the shorter dimension's
axis; the failure is raised by the final containment check on the corrected box, whose
attempted value, together with the original input box, is carried in the error. -/
theorem pad_error_iff_infeasible (box : Box) (ymin xmin ymax xmax : Int)
    (hb : inBounds box ymin xmin ymax xmax) :
    ((∃ e, pad_to_square box ymin xmin ymax xmax = Except.error e) ↔
      ((box.x_max - box.x_min > box.y_max - box.y_min ∧
          box.x_max - box.x_min > ymax - ymin) ∨
        (box.y_max - box.y_min > box.x_max - box.x_min ∧
          box.y_max - box.y_min > xmax - xmin))) ∧
    (∀ e, pad_to_square box ymin xmin ymax xmax = Except.error e →
      e = (pad_corrected box ymin xmin ymax xmax, box) ∧
        ¬ inBounds (pad_corrected box ymin xmin ymax xmax) ymin xmin ymax xmax) := by
  refine ⟨?_, ?_⟩
  · rw [pad_to_square_isError_iff box ymin xmin ymax xmax,
      pad_corrected_inBounds_of_contained box ymin xmin ymax xmax hb]
    exact not_not
  · intro e he
    exact (pad_to_square_error_iff box ymin xmin ymax xmax e).mp he

/-- Claim C2 witness: bounds `(ymin,xmin,ymax,xmax) = (0,0,10,100)` with the contained
box `(0,0,100,5)`, whose width 100 exceeds the vertical span 10, must raise. -/
theorem pad_error_iff_infeasible_witness :
    inBounds ⟨0, 0, 100, 5⟩ 0 0 10 100 ∧
      (∃ e, pad_to_square ⟨0, 0, 100, 5⟩ 0 0 10 100 = Except.error e) :=
  ⟨by decide,
    (pad_error_iff_infeasible ⟨0, 0, 100, 5⟩ 0 0 10 100 (by decide)).1.mpr (by decide)⟩

/-- Claim C3: for a box contained in the bounds with ordered coordinates, a successful
`pad_to_square` returns a square whose side equals the longer of the original box's
width and height. -/
theorem pad_ok_side_eq_max (box : Box) (ymin xmin ymax xmax : Int)
    (hb : inBounds box ymin xmin ymax xmax)
    (hbx : box.x_min ≤ box.x_max) (hby : box.y_min ≤ box.y_max) (b : Box)
    (h : pad_to_square box ymin xmin ymax xmax = Except.ok b) :
    b.x_max - b.x_min = max (box.x_max - box.x_min) (box.y_max - box.y_min) := by
  obtain ⟨rfl, -⟩ := (pad_to_square_ok_iff box ymin xmin ymax xmax b).mp h
  exact pad_corrected_side box ymin xmin ymax xmax

/-- Claim C3 witness: box `(0,0,10,5)` in bounds `(0,0,100,100)` yields side
`10 = max 10 5`. -/
theorem pad_ok_side_eq_max_witness :
    (⟨0, 0, 10, 10⟩ : Box).x_max - (⟨0, 0, 10, 10⟩ : Box).x_min =
      max ((⟨0, 0, 10, 5⟩ : Box).x_max - (⟨0, 0, 10, 5⟩ : Box).x_min)
        ((⟨0, 0, 10, 5⟩ : Box).y_max - (⟨0, 0, 10, 5⟩ : Box).y_min) :=
  pad_ok_side_eq_max ⟨0, 0, 10, 5⟩ 0 0 100 100 (by decide) (by decide) (by decide)
    ⟨0, 0, 10, 10⟩ (by
      simp [pad_to_square, pad_corrected, pad_y, pad_x, correct_min_y, correct_max_y,
        correct_min_x, correct_max_x, padCeil_eq, padFloor_eq])

/-- Claim C4: when `width > height`, `pad_to_square` subtracts `ceil(padding)` from
`y_min` and adds `floor(padding)` to `y_max`, with `padding = (width - height) / 2`, so
the total length added on the shorter axis is exactly `width - height` and the extra
unit goes to the min side when the difference is odd; symmetrically for
`height > width` on the x axis; and when the edge corrections do not fire, the longer
original dimension's coordinates are unchanged. -/
theorem pad_ok_ceil_floor_split (box : Box) (ymin xmin ymax xmax : Int) (b : Box)
    (h : pad_to_square box ymin xmin ymax xmax = Except.ok b) :
    (box.x_max - box.x_min > box.y_max - box.y_min →
      ymin ≤ box.y_min -
          ⌈((box.x_max - box.x_min - (box.y_max - box.y_min) : Int) : ℚ) / 2⌉ →
      box.y_max +
          ⌊((box.x_max - box.x_min - (box.y_max - box.y_min) : Int) : ℚ) / 2⌋ ≤ ymax →
      b.y_min = box.y_min -
          ⌈((box.x_max - box.x_min - (box.y_max - box.y_min) : Int) : ℚ) / 2⌉ ∧
      b.y_max = box.y_max +
          ⌊((box.x_max - box.x_min - (box.y_max - box.y_min) : Int) : ℚ) / 2⌋ ∧
      (box.y_min - b.y_min) + (b.y_max - box.y_max) =
          box.x_max - box.x_min - (box.y_max - box.y_min) ∧
      (box.y_min - b.y_min) - (b.y_max - box.y_max) =
          (box.x_max - box.x_min - (box.y_max - box.y_min)) % 2 ∧
      b.x_min = box.x_min ∧ b.x_max = box.x_max) ∧
    (box.y_max - box.y_min > box.x_max - box.x_min →
      xmin ≤ box.x_min -
          ⌈((box.y_max - box.y_min - (box.x_max - box.x_min) : Int) : ℚ) / 2⌉ →
      box.x_max +
          ⌊((box.y_max - box.y_min - (box.x_max - box.x_min) : Int) : ℚ) / 2⌋ ≤ xmax →
      b.x_min = box.x_min -
          ⌈((box.y_max - box.y_min - (box.x_max - box.x_min) : Int) : ℚ) / 2⌉ ∧
      b.x_max = box.x_max +
          ⌊((box.y_max - box.y_min - (box.x_max - box.x_min) : Int) : ℚ) / 2⌋ ∧
      (box.x_min - b.x_min) + (b.x_max - box.x_max) =
          box.y_max - box.y_min - (box.x_max - box.x_min) ∧
      (box.x_min - b.x_min) - (b.x_max - box.x_max) =
          (box.y_max - box.y_min - (box.x_max - box.x_min)) % 2 ∧
      b.y_min = box.y_min ∧ b.y_max = box.y_max) := by
  obtain ⟨rfl, -⟩ := (pad_to_square_ok_iff box ymin xmin ymax xmax b).mp h
  constructor
  · intro h1 hc1 hc2
    rw [ceil_half_eq_padCeil _ (by omega)] at hc1 ⊢
    rw [floor_half_eq_padFloor _ (by omega)] at hc2 ⊢
    obtain ⟨hp1, hp2, hp3, hp4⟩ := pad_y_spec box
    have hpc : pad_corrected box ymin xmin ymax xmax = pad_y box := by
      unfold pad_corrected
      rw [if_pos h1]
      exact corr_y_id (pad_y box) ymin ymax (by omega) (by omega)
    rw [hpc]
    have hcs := padCeil_eq (box.x_max - box.x_min - (box.y_max - box.y_min))
    have hfs := padFloor_eq (box.x_max - box.x_min - (box.y_max - box.y_min))
    omega
  · intro h1 hc1 hc2
    rw [ceil_half_eq_padCeil _ (by omega)] at hc1 ⊢
    rw [floor_half_eq_padFloor _ (by omega)] at hc2 ⊢
    obtain ⟨hp1, hp2, hp3, hp4⟩ := pad_x_spec box
    have hcs1 := padCeil_eq (box.x_max - box.x_min - (box.y_max - box.y_min))
    have hfs1 := padFloor_eq (box.x_max - box.x_min - (box.y_max - box.y_min))
    have hcs2 := padCeil_eq (box.y_max - box.y_min - (box.x_max - box.x_min))
    have hfs2 := padFloor_eq (box.y_max - box.y_min - (box.x_max - box.x_min))
    have hpc : pad_corrected box ymin xmin ymax xmax = pad_x box := by
      unfold pad_corrected
      rw [if_neg (by omega), if_pos h1]
      exact corr_x_id (pad_x box) xmin xmax (by omega) (by omega)
    rw [hpc]
    omega

/-- Claim C4 witness: box `(0,10,10,14)` (width 10, height 4) in bounds `(0,0,100,100)`
pads to `(0,7,10,17)` with no edge correction. -/
theorem pad_ok_ceil_floor_split_witness :
    pad_to_square ⟨0, 10, 10, 14⟩ 0 0 100 100 = Except.ok ⟨0, 7, 10, 17⟩ ∧
      (⟨0, 7, 10, 17⟩ : Box).y_min = 10 - 3 ∧ (⟨0, 7, 10, 17⟩ : Box).y_max = 14 + 3 := by
  have h : pad_to_square ⟨0, 10, 10, 14⟩ 0 0 100 100 = Except.ok ⟨0, 7, 10, 17⟩ := by
    simp [pad_to_square, pad_corrected, pad_y, pad_x, correct_min_y, correct_max_y,
      correct_min_x, correct_max_x, padCeil_eq, padFloor_eq]
  have h2 := pad_ok_ceil_floor_split ⟨0, 10, 10, 14⟩ 0 0 100 100 ⟨0, 7, 10, 17⟩ h
  exact ⟨h, by decide, by decide⟩

/-- Claim C5: `confine_box` never fails, and each of the four result coordinates is
`max(lower, min(upper, value))`, hence lies within the corresponding bound interval. -/
theorem confine_box_clamps (box : Box) (ymin xmin ymax xmax : Int)
    (hx : xmin ≤ xmax) (hy : ymin ≤ ymax) :
    confine_box box ymin xmin ymax xmax =
      { x_min := max xmin (min xmax box.x_min), y_min := max ymin (min ymax box.y_min),
        x_max := max xmin (min xmax box.x_max),
        y_max := max ymin (min ymax box.y_max) } ∧
    coordsWithin (confine_box box ymin xmin ymax xmax) ymin xmin ymax xmax := by
  refine ⟨rfl, ?_⟩
  obtain ⟨a1, a2⟩ := clamp_mem xmin xmax box.x_min hx
  obtain ⟨a3, a4⟩ := clamp_mem xmin xmax box.x_max hx
  obtain ⟨a5, a6⟩ := clamp_mem ymin ymax box.y_min hy
  obtain ⟨a7, a8⟩ := clamp_mem ymin ymax box.y_max hy
  exact ⟨a1, a2, a3, a4, a5, a6, a7, a8⟩

/-- Claim C5 witness: the inverted, out-of-bounds box `(-7,3,250,40)` is clamped into
bounds `(0,0,100,200)`. -/
theorem confine_box_clamps_witness :
    confine_box ⟨-7, 3, 250, 40⟩ 0 0 100 200 =
      { x_min := max 0 (min 200 (-7 : Int)), y_min := max 0 (min 100 (3 : Int)),
        x_max := max 0 (min 200 (250 : Int)),
        y_max := max 0 (min 100 (40 : Int)) } ∧
    coordsWithin (confine_box ⟨-7, 3, 250, 40⟩ 0 0 100 200) 0 0 100 200 :=
  confine_box_clamps ⟨-7, 3, 250, 40⟩ 0 0 100 200 (by decide) (by decide)

/-- Claim C6 counterexample: with bounds `(0,0,100,100)` the box `(5,10,5,20)` clamps
to itself with zero width, yet the per-label processing emits a patch for it: the
padding step turns it into the square `(0,10,10,20)`, so the zero-area test after
padding does not fire and the label is not skipped. -/
theorem process_label_emits_zero_width_clamped :
    ((confine_box ⟨5, 10, 5, 20⟩ 0 0 100 100).x_max -
        (confine_box ⟨5, 10, 5, 20⟩ 0 0 100 100).x_min = 0) ∧
      process_label ⟨5, 10, 5, 20⟩ 0 0 100 100 = some ⟨0, 10, 10, 20⟩ := by
  constructor
  · decide
  · simp [process_label, confine_box, pad_to_square, pad_corrected, pad_y, pad_x,
      correct_min_y, correct_max_y, correct_min_x, correct_max_x, padCeil_eq,
      padFloor_eq]

/-- Claim C6 amended: for every label whose box, after clamping and padding, has zero
width or zero height, the per-label processing skips that label and emits no patch. -/
theorem process_label_skips_degenerate_padded (box : Box) (ymin xmin ymax xmax : Int)
    (b : Box)
    (h : pad_to_square (confine_box box ymin xmin ymax xmax) ymin xmin ymax xmax =
      Except.ok b)
    (hdeg : b.x_max - b.x_min = 0 ∨ b.y_max - b.y_min = 0) :
    process_label box ymin xmin ymax xmax = none := by
  simp only [process_label]
  rw [h]
  exact if_pos hdeg

/-- Claim C6 amended witness: the point box `(3,3,3,3)` in bounds `(0,0,10,10)` pads to
itself, is degenerate, and is skipped. -/
theorem process_label_skips_degenerate_padded_witness :
    process_label ⟨3, 3, 3, 3⟩ 0 0 10 10 = none :=
  process_label_skips_degenerate_padded ⟨3, 3, 3, 3⟩ 0 0 10 10 ⟨3, 3, 3, 3⟩
    (by
      simp [pad_to_square, pad_corrected, pad_y, pad_x, confine_box, correct_min_y,
        correct_max_y, correct_min_x, correct_max_x, padCeil_eq, padFloor_eq])
    (by decide)

/-- Claim C7: a box with `width == height` is left unchanged by the padding logic, but
the post-condition check still applies: it is returned unchanged when it lies within
the bounds and raises `InfeasibleSquare` otherwise. -/
theorem pad_already_square (box : Box) (ymin xmin ymax xmax : Int)
    (h : box.x_max - box.x_min = box.y_max - box.y_min) :
    pad_to_square box ymin xmin ymax xmax =
      if inBounds box ymin xmin ymax xmax then Except.ok box
      else Except.error (box, box) := by
  have hpc : pad_corrected box ymin xmin ymax xmax = box :=
    (pad_corrected_frame box ymin xmin ymax xmax).2.2 h
  unfold pad_to_square
  rw [hpc]
  by_cases hin : inBounds box ymin xmin ymax xmax
  · rw [if_pos hin]
    obtain ⟨a1, a2, a3, a4⟩ := hin
    have hviol : ¬(box.x_min < xmin ∨ box.x_max > xmax ∨ box.y_min < ymin ∨
        box.y_max > ymax) := by omega
    rw [if_neg hviol]
  · rw [if_neg hin]
    have hviol : box.x_min < xmin ∨ box.x_max > xmax ∨ box.y_min < ymin ∨
        box.y_max > ymax := by
      by_contra hc
      exact hin ⟨by omega, by omega, by omega, by omega⟩
    rw [if_pos hviol]

/-- Claim C7 witness: already-square box `(10,10,20,20)` with bounds `(0,0,100,100)`. -/
theorem pad_already_square_witness :
    pad_to_square ⟨10, 10, 20, 20⟩ 0 0 100 100 =
      if inBounds ⟨10, 10, 20, 20⟩ 0 0 100 100 then Except.ok ⟨10, 10, 20, 20⟩
      else Except.error (⟨10, 10, 20, 20⟩, ⟨10, 10, 20, 20⟩) :=
  pad_already_square ⟨10, 10, 20, 20⟩ 0 0 100 100 (by decide)

/-- Claim C8: `confine_box` is the identity on boxes whose four coordinates already lie
within the bounds, hence idempotent. -/
theorem confine_box_id (box : Box) (ymin xmin ymax xmax : Int)
    (h : coordsWithin box ymin xmin ymax xmax) :
    confine_box box ymin xmin ymax xmax = box ∧
      confine_box (confine_box box ymin xmin ymax xmax) ymin xmin ymax xmax =
        confine_box box ymin xmin ymax xmax := by
  obtain ⟨h1, h2, h3, h4, h5, h6, h7, h8⟩ := h
  have hid : confine_box box ymin xmin ymax xmax = box := by
    unfold confine_box
    rw [clamp_eq_self xmin xmax box.x_min h1 h2, clamp_eq_self ymin ymax box.y_min h5 h6,
      clamp_eq_self xmin xmax box.x_max h3 h4, clamp_eq_self ymin ymax box.y_max h7 h8]
  exact ⟨hid, by rw [hid, hid]⟩

/-- Claim C8 witness: box `(10,10,20,20)` within bounds `(0,0,100,100)`. -/
theorem confine_box_id_witness :
    confine_box ⟨10, 10, 20, 20⟩ 0 0 100 100 = ⟨10, 10, 20, 20⟩ ∧
      confine_box (confine_box ⟨10, 10, 20, 20⟩ 0 0 100 100) 0 0 100 100 =
        confine_box ⟨10, 10, 20, 20⟩ 0 0 100 100 :=
  confine_box_id ⟨10, 10, 20, 20⟩ 0 0 100 100 (by decide)

/-- Claim C9: `pad_to_square` never modifies the coordinates of the longer axis: on
success, if `width > height` then `x_min` and `x_max` are unchanged; if
`height > width` then `y_min` and `y_max` are unchanged; if `width == height` all four
coordinates are unchanged. -/
theorem pad_ok_frame (box : Box) (ymin xmin ymax xmax : Int) (b : Box)
    (h : pad_to_square box ymin xmin ymax xmax = Except.ok b) :
    (box.x_max - box.x_min > box.y_max - box.y_min →
      b.x_min = box.x_min ∧ b.x_max = box.x_max) ∧
    (box.y_max - box.y_min > box.x_max - box.x_min →
      b.y_min = box.y_min ∧ b.y_max = box.y_max) ∧
    (box.x_max - box.x_min = box.y_max - box.y_min → b = box) := by
  obtain ⟨rfl, -⟩ := (pad_to_square_ok_iff box ymin xmin ymax xmax b).mp h
  exact pad_corrected_frame box ymin xmin ymax xmax

/-- Claim C9 witness: box `(0,0,10,5)` pads to `(0,0,10,10)` with `x_min`, `x_max`
untouched even though the lower edge correction fired. -/
theorem pad_ok_frame_witness :
    ((⟨0, 0, 10, 5⟩ : Box).x_max - (⟨0, 0, 10, 5⟩ : Box).x_min >
        (⟨0, 0, 10, 5⟩ : Box).y_max - (⟨0, 0, 10, 5⟩ : Box).y_min →
      (⟨0, 0, 10, 10⟩ : Box).x_min = (⟨0, 0, 10, 5⟩ : Box).x_min ∧
        (⟨0, 0, 10, 10⟩ : Box).x_max = (⟨0, 0, 10, 5⟩ : Box).x_max) ∧
    ((⟨0, 0, 10, 5⟩ : Box).y_max - (⟨0, 0, 10, 5⟩ : Box).y_min >
        (⟨0, 0, 10, 5⟩ : Box).x_max - (⟨0, 0, 10, 5⟩ : Box).x_min →
      (⟨0, 0, 10, 10⟩ : Box).y_min = (⟨0, 0, 10, 5⟩ : Box).y_min ∧
        (⟨0, 0, 10, 10⟩ : Box).y_max = (⟨0, 0, 10, 5⟩ : Box).y_max) ∧
    ((⟨0, 0, 10, 5⟩ : Box).x_max - (⟨0, 0, 10, 5⟩ : Box).x_min =
        (⟨0, 0, 10, 5⟩ : Box).y_max - (⟨0, 0, 10, 5⟩ : Box).y_min →
      (⟨0, 0, 10, 10⟩ : Box) = ⟨0, 0, 10, 5⟩) :=
  pad_ok_frame ⟨0, 0, 10, 5⟩ 0 0 100 100 ⟨0, 0, 10, 10⟩ (by
    simp [pad_to_square, pad_corrected, pad_y, pad_x, correct_min_y, correct_max_y,
      correct_min_x, correct_max_x, padCeil_eq, padFloor_eq])

/-- Claim C10: `confine_box` preserves coordinate ordering on each axis when the bounds
are ordered. -/
theorem confine_box_order (box : Box) (ymin xmin ymax xmax : Int)
    (hx : xmin ≤ xmax) (hy : ymin ≤ ymax) :
    (box.x_min ≤ box.x_max →
      (confine_box box ymin xmin ymax xmax).x_min ≤
        (confine_box box ymin xmin ymax xmax).x_max) ∧
    (box.y_min ≤ box.y_max →
      (confine_box box ymin xmin ymax xmax).y_min ≤
        (confine_box box ymin xmin ymax xmax).y_max) :=
  ⟨fun h => clamp_mono xmin xmax h, fun h => clamp_mono ymin ymax h⟩

/-- Claim C10 witness: box `(-5,40,120,90)` with bounds `(0,0,100,200)`. -/
theorem confine_box_order_witness :
    ((⟨-5, 40, 120, 90⟩ : Box).x_min ≤ (⟨-5, 40, 120, 90⟩ : Box).x_max →
      (confine_box ⟨-5, 40, 120, 90⟩ 0 0 100 200).x_min ≤
        (confine_box ⟨-5, 40, 120, 90⟩ 0 0 100 200).x_max) ∧
    ((⟨-5, 40, 120, 90⟩ : Box).y_min ≤ (⟨-5, 40, 120, 90⟩ : Box).y_max →
      (confine_box ⟨-5, 40, 120, 90⟩ 0 0 100 200).y_min ≤
        (confine_box ⟨-5, 40, 120, 90⟩ 0 0 100 200).y_max) :=
  confine_box_order ⟨-5, 40, 120, 90⟩ 0 0 100 200 (by decide) (by decide)

end ExtractPatches
